import Mathlib

/-!
Verification of the gomost multi-host proxy (github.com/landonia/gomost).

The definitions below are a shallow embedding of the Go sources:
  * proxy/proxy.go   — Setup, the dispatch handler, AddHostHandler,
                       Service, Listen, the redirect handler, Shutdown
  * proxy/config.go  — the Configuration / HostConfig data model
  * the listener helpers — TLS, CERT, LETSENCRYPT, LETSENCRYPTPROD,
                       TCP4, ParseHost

External collaborators (the Go standard library and the letsencrypt
managers) are modelled from their documented behaviour and are marked as
such in their doc comments.
-/

namespace Gomost

/-! ## Go string primitives

Small models of the Go `strings` package operations the sources use.
Strings are handled through their character lists. -/

/-- Index of the first occurrence of character c, scanning from offset i.
Helper for stringsIndexByte. -/
def strIndexAux (t : Char) : List Char → Nat → Option Nat
  | [], _ => none
  | c :: cs, i => if c = t then some i else strIndexAux t cs (i + 1)

/-- Model of Go strings.IndexByte(s, c): position of the first occurrence
of c in s, or none where Go returns -1.  The sources only ever search for
a single-byte pattern, so strings.Index(s, ":") is the same operation. -/
def stringsIndexByte (s : String) (c : Char) : Option Nat :=
  strIndexAux c s.data 0

/-- Model of the Go slice expression s[:n]. -/
def strTake (s : String) (n : Nat) : String :=
  String.mk (s.data.take n)

/-- Model of the Go slice expression s[n:]. -/
def strDrop (s : String) (n : Nat) : String :=
  String.mk (s.data.drop n)

/-! ## Go path.Join

Modelled from the spec of the Go standard library (external to this
repository): path.Join joins its elements with slashes and lexically
normalizes the result like path.Clean does — empty and dot segments are
dropped, dot-dot segments pop the previous segment (and are dropped at
the root of a rooted path). -/

/-- One pass of the lexical normalization: fold the slash-separated
segments onto a stack kept in reverse order. -/
def normSegs (rooted : Bool) : List String → List String → List String
  | stack, [] => stack
  | stack, c :: cs =>
    if c = "" || c = "." then normSegs rooted stack cs
    else if c = ".." then
      match stack with
      | [] => if rooted then normSegs rooted [] cs else normSegs rooted [".."] cs
      | top :: rest =>
        if top = ".." then normSegs rooted (c :: top :: rest) cs
        else normSegs rooted rest cs
    else normSegs rooted (c :: stack) cs

/-- Split a character list into the slash-separated segments, the first
argument accumulating the current segment in reverse. -/
def splitSlash (acc : List Char) : List Char → List String
  | [] => [String.mk acc.reverse]
  | c :: cs =>
    if c = '/' then String.mk acc.reverse :: splitSlash [] cs
    else splitSlash (c :: acc) cs

/-- Join segments with slashes. -/
def joinSlash : List String → String
  | [] => ""
  | [s] => s
  | s :: rest => s ++ "/" ++ joinSlash rest

/-- Model of Go path.Clean (documented lexical normalization; external
standard library code). -/
def pathNormalize (p : String) : String :=
  if p = "" then "." else
  let rooted := p.data.head? = some '/'
  let stack := normSegs rooted [] (splitSlash [] p.data)
  let body := joinSlash stack.reverse
  if rooted then
    if body = "" then "/" else "/" ++ body
  else
    if body = "" then "." else body

/-- Model of Go path.Join for the two-argument call sites used by the
proxy: empty leading elements are skipped, the rest are joined with a
slash and normalized. -/
def pathJoin (a b : String) : String :=
  if a ≠ "" then pathNormalize (a ++ "/" ++ b)
  else if b ≠ "" then pathNormalize b
  else ""

/-! ## Go map model

Go maps with string keys are modelled as association lists with at most
one binding per key: assignment m[k] = v overwrites the binding in place
when the key is present and appends it otherwise, exactly the observable
behaviour of a Go map write. -/

/-- Association-list model of a Go map with string keys. -/
abbrev GoMap (α : Type) := List (String × α)

/-- Model of the Go map read m[k] (with its presence flag). -/
def mapLookup : GoMap α → String → Option α
  | [], _ => none
  | (k, v) :: m, key => if k = key then some v else mapLookup m key

/-- Model of the Go map write m[k] = v: replace the existing binding for
the key, or append a fresh one. -/
def mapInsert : GoMap α → String → α → GoMap α
  | [], key, v => [(key, v)]
  | (k, w) :: m, key, v =>
    if k = key then (key, v) :: m else (k, w) :: mapInsert m key v

/-- Number of bindings a map holds for one key. -/
def countKey (m : GoMap α) (key : String) : Nat :=
  m.countP (fun p => p.1 == key)

/-! ## Configuration data model (proxy/config.go, nested shape) -/

/-- Redirect sub-configuration of the SSL block. -/
structure RedirectHTTPConfig where
  Enable : Bool
  Addr : String
deriving DecidableEq, Repr

/-- Explicit certificate file paths of the SSL block. -/
structure SSLFilesConfig where
  CertFile : String
  KeyFile : String
deriving DecidableEq, Repr

/-- The SSL block of the configuration. -/
structure SSLConfig where
  RedirectHTTP : RedirectHTTPConfig
  DisableLetsEncrypt : Bool
  Default : SSLFilesConfig
deriving DecidableEq, Repr

/-- One host route: the virtual host name (Proxy) and the upstream base
URL (Host). -/
structure HostConfig where
  Proxy : String
  Host : String
deriving DecidableEq, Repr

/-- The validated configuration value Setup consumes. -/
structure Configuration where
  Prod : Bool
  Addr : String
  LogLevel : String
  StaticDir : String
  Proxies : List HostConfig
  SSL : SSLConfig
deriving DecidableEq, Repr

/-! ## Address normalization (ParseHost and the listener helpers) -/

/-- Default SSL address suffix. -/
def DefaultSSLAddr : String := ":443"

/-- Default hostname. -/
def DefaultServerHostname : String := "0.0.0.0"

/-- Default port (not used directly, only through DefaultServerAddr). -/
def DefaultServerPort : Nat := 8080

/-- Default server address, 0.0.0.0:8080. -/
def DefaultServerAddr : String :=
  DefaultServerHostname ++ ":" ++ toString DefaultServerPort

/-- The environment variables ParseHost consults. Go os.Getenv yields the
empty string for an unset variable, so unset is represented by "". -/
structure GoEnv where
  ADDR : String
  HOST : String
  HOSTNAME : String
  PORT : String
deriving DecidableEq, Repr

/-- Model of ParseHost: an empty address falls back to the environment
(ADDR, then HOST, then HOSTNAME with an optional :PORT suffix, then PORT
alone, then the default address); afterwards an address whose first
character is a colon is prefixed with the default hostname, with :https
mapped to 0.0.0.0:443. -/
def ParseHost (env : GoEnv) (addr : String) : String :=
  let a :=
    if addr = "" then
      if env.ADDR ≠ "" then env.ADDR
      else if env.HOST ≠ "" then env.HOST
      else if env.HOSTNAME ≠ "" then
        if env.PORT ≠ "" then env.HOSTNAME ++ ":" ++ env.PORT else env.HOSTNAME
      else if env.PORT ≠ "" then ":" ++ env.PORT
      else DefaultServerAddr
    else addr
  match stringsIndexByte a ':' with
  | some 0 =>
    if a = ":https" then DefaultServerHostname ++ ":443"
    else DefaultServerHostname ++ a
  | _ => a

/-! ## Listener provisioning helpers -/

/-- The kinds of listener the provisioning helpers return. The socket
and the TLS machinery themselves are external; the model records which
wrapping was chosen, the bound address, and the certificate source. -/
inductive Listener where
  | tlsCert (addr cert : String)
  | acme (prod : Bool) (addr : String)
  | tcp (addr : String)
deriving DecidableEq, Repr

/-- Model of TCP4: net.Listen on tcp4 at the ParseHost normalization of
the address. Binding is modelled as succeeding; bind failures are
operating-system conditions outside the embedding. -/
def TCP4 (env : GoEnv) (addr : String) : Except String Listener :=
  .ok (.tcp (ParseHost env addr))

/-- Error message of TLS when a path is missing. -/
def errCertKeyMissing : String := "You should provide certFile and keyFile for TLS/SSL"

/-- Model of CERT: obtain the tcp4 listener (always obtained in this
model) and wrap it in a TLS listener configured with the single provided
certificate and server-preferred cipher suites. -/
def CERT (env : GoEnv) (addr cert : String) : Except String Listener :=
  .ok (.tlsCert (ParseHost env addr) cert)

/-- Model of TLS: require both file paths, load the key pair, delegate
to CERT. tls.LoadX509KeyPair is external standard library code and is
abstracted as the loadCert argument; none models a load failure and a
loaded certificate is represented by an opaque string. -/
def TLS (env : GoEnv) (loadCert : String → String → Option String)
    (addr certFile keyFile : String) : Except String Listener :=
  if certFile = "" ∨ keyFile = "" then .error errCertKeyMissing
  else
    match loadCert certFile keyFile with
    | none =>
      .error ("Couldn't load TLS, certFile=" ++ certFile ++ ", keyFile=" ++ keyFile)
    | some cert => CERT env addr cert

/-- Model of LETSENCRYPT: append the default SSL port when the address
has no colon, obtain the tcp4 listener and wrap it with the staging
letsencrypt certificate manager (manager internals external). -/
def LETSENCRYPT (env : GoEnv) (addr : String) : Except String Listener :=
  let addr := if stringsIndexByte addr ':' = none then addr ++ DefaultSSLAddr else addr
  .ok (.acme false (ParseHost env addr))

/-- Model of LETSENCRYPTPROD: like LETSENCRYPT but with the production
autocert manager (auto-accepting the terms of service). -/
def LETSENCRYPTPROD (env : GoEnv) (addr : String) : Except String Listener :=
  let addr := if stringsIndexByte addr ':' = none then addr ++ DefaultSSLAddr else addr
  .ok (.acme true (ParseHost env addr))

/-- Model of the listener selection in Proxy.Listen (proxy/proxy.go
lines 253-276): explicit certificate files take priority, then the
letsencrypt managers unless disabled (production variant exactly when
the Prod flag is set), else a plain tcp4 listener. -/
def Listen (env : GoEnv) (loadCert : String → String → Option String)
    (config : Configuration) : Except String Listener :=
  let addr := ParseHost env config.Addr
  if config.SSL.Default.CertFile ≠ "" ∧ config.SSL.Default.KeyFile ≠ "" then
    TLS env loadCert addr config.SSL.Default.CertFile config.SSL.Default.KeyFile
  else if ¬config.SSL.DisableLetsEncrypt then
    if config.Prod then LETSENCRYPTPROD env addr else LETSENCRYPT env addr
  else
    TCP4 env addr

/-! ## The host dispatcher (proxy/proxy.go Setup, AddHostHandler) -/

/-- A request as the dispatch and redirect handlers see it: the raw Host
header, the URL path, and the raw request URI (path plus query). -/
structure Request where
  host : String
  urlPath : String
  requestURI : String
deriving DecidableEq, Repr

/-- The routing decision the root handler takes for one request
(proxy/proxy.go lines 183-205). -/
inductive Dispatch (α : Type) where
  | handler (h : α)
  | proxy (target : String)
  | serveFile (name : String)
  | notFound
deriving DecidableEq, Repr

/-- Model of the root proxy handler built by Setup: look the raw Host
header up among the local handlers, then among the reverse proxies, then
fall back to http.ServeFile on path.Join(StaticDir, Host) when a static
root is configured, else answer 404. -/
def proxyHandler (handlers : GoMap α) (proxies : GoMap String)
    (staticDir : String) (req : Request) : Dispatch α :=
  match mapLookup handlers req.host with
  | some h => .handler h
  | none =>
    match mapLookup proxies req.host with
    | some p => .proxy p
    | none =>
      if staticDir ≠ "" then .serveFile (pathJoin staticDir req.host)
      else .notFound

/-- Model of the proxy-table construction loop of Setup (proxy/proxy.go
lines 174-180): each route whose upstream URL parses is written into the
map under its virtual host name (the Proxy field); a route whose URL
fails to parse is skipped with a logged warning. url.Parse is external
standard library code, abstracted as the urlOk predicate; the reverse
proxy built from a parsed URL is represented by the upstream URL string
it forwards to. -/
def setupProxies (urlOk : String → Bool) (routes : List HostConfig) : GoMap String :=
  routes.foldl
    (fun m route =>
      if urlOk route.Host then mapInsert m route.Proxy route.Host else m)
    []

/-- The Proxy value Setup builds: the configuration, the handler map
(some [] records that the map was allocated; none models the nil map of
a Proxy value not produced by Setup), and the reverse-proxy table. -/
structure ProxyModel (α : Type) where
  config : Configuration
  handlers : Option (GoMap α)
  proxies : GoMap String

/-- Model of Setup (proxy/proxy.go lines 167-207): allocate the two
maps, build the proxy table, install the root handler, and return with a
nil error unconditionally. -/
def Setup (urlOk : String → Bool) (config : Configuration) :
    Except String (ProxyModel α) :=
  .ok
    { config := config
      handlers := some []
      proxies := setupProxies urlOk config.Proxies }

/-- Error message for an empty host. -/
def errHostEmpty : String := "The host cannot be empty"

/-- Error message for a proxy whose maps were never allocated. -/
def errSetupNotCalled : String := "Setup() must be called"

/-- Model of AddHostHandler (proxy/proxy.go lines 211-220): reject an
empty host, reject a nil handler map (a Proxy not built by Setup),
otherwise write the handler into the map. -/
def AddHostHandler (handlers : Option (GoMap α)) (host : String) (handler : α) :
    Except String (Option (GoMap α)) :=
  if host = "" then .error errHostEmpty
  else
    match handlers with
    | none => .error errSetupNotCalled
    | some m => .ok (some (mapInsert m host handler))

/-! ## Static file serving -/

/-- The observable response of the root handler once the static branch
is resolved against the file system. -/
inductive HttpAnswer (α : Type) where
  | fromHandler (h : α)
  | fromProxy (target : String)
  | fileContent (name : String)
  | notFound
deriving DecidableEq, Repr

/-- Modelled from the spec: http.ServeFile (external net/http code, not
part of this repository) serves the content of exactly the named file or
directory when it exists and responds 404 Not Found when the resolved
path does not exist. Conditional-request and redirect refinements of a
successful serve are abstracted into fileContent. -/
def dispatchAnswer (fsExists : String → Bool) : Dispatch α → HttpAnswer α
  | .handler h => .fromHandler h
  | .proxy p => .fromProxy p
  | .serveFile name => if fsExists name then .fileContent name else .notFound
  | .notFound => .notFound

/-! ## The redirect server -/

/-- Model of the redirect-port computation in Listen (proxy/proxy.go
lines 280-284): everything after the first colon of the configured
address, unless that suffix is exactly 443. The colon itself is not part
of the suffix. -/
def realSSLPort (configAddr : String) : String :=
  match stringsIndexByte configAddr ':' with
  | some i =>
    if strDrop configAddr (i + 1) ≠ "443" then strDrop configAddr (i + 1) else ""
  | none => ""

/-- An HTTP redirect response. http.Redirect with an absolute target URL
sets the Location header to exactly that URL (net/http is external; this
records its documented behaviour). -/
structure RedirectResponse where
  status : Nat
  location : String
deriving DecidableEq, Repr

/-- Model of the redirect server handler (proxy/proxy.go lines 290-301):
strip everything from the first colon of the request Host, then redirect
permanently (status 301) to the https scheme, the stripped host, the
computed port suffix, and the original request URI. -/
def redirectHandler (configAddr : String) (req : Request) : RedirectResponse :=
  let realHost :=
    match stringsIndexByte req.host ':' with
    | some i => strTake req.host i
    | none => req.host
  { status := 301
    location := "https://" ++ realHost ++ realSSLPort configAddr ++ req.requestURI }

/-! ## Lifecycle: Service and Shutdown -/

/-- State of one running Proxy for the lifecycle protocol. exitChan
holds the messages pending on the gm.exit channel (none standing for the
Go nil error); serviceResult is the value Service has returned, once it
has; listenerClosed records whether any modelled operation has closed
the primary listener socket. No function in proxy/proxy.go calls Close
(or http.Server shutdown methods) on the listener or on either server,
so no operation of this model sets listenerClosed. -/
structure RunState where
  exitChan : List (Option String)
  serviceResult : Option (Option String)
  listenerClosed : Bool
deriving DecidableEq, Repr

/-- Model of Shutdown (proxy/proxy.go lines 316-318): its entire body is
the channel send of a nil error on gm.exit. -/
def Shutdown (s : RunState) : RunState :=
  { s with exitChan := s.exitChan ++ [none] }

/-- Model of the tail of Service (proxy/proxy.go lines 243-247): block
until a value arrives on gm.exit, then record it as the Service return
value. The still-blocked state is represented by an unchanged state
while no message is available. -/
def serviceAwait (s : RunState) : RunState :=
  match s.exitChan with
  | v :: rest => { s with exitChan := rest, serviceResult := some v }
  | [] => s

/-- The state of a proxy that has entered Service and is serving: no
message pending, no result yet, primary listener open. -/
def servingState : RunState :=
  { exitChan := [], serviceResult := none, listenerClosed := false }

/-! ## Map lemmas -/

theorem mapLookup_insert_self (m : GoMap α) (k : String) (v : α) :
    mapLookup (mapInsert m k v) k = some v := by
  induction m with
  | nil => simp [mapInsert, mapLookup]
  | cons p m ih =>
    obtain ⟨a, w⟩ := p
    by_cases h : a = k <;> simp [mapInsert, mapLookup, h, ih]

theorem mapLookup_insert_ne (m : GoMap α) (k k' : String) (v : α)
    (hne : k' ≠ k) : mapLookup (mapInsert m k v) k' = mapLookup m k' := by
  induction m with
  | nil => simp [mapInsert, mapLookup, Ne.symm hne]
  | cons p m ih =>
    obtain ⟨a, w⟩ := p
    by_cases h : a = k
    · subst h
      simp [mapInsert, mapLookup, Ne.symm hne]
    · simp [mapInsert, mapLookup, h, ih]

theorem countKey_insert_self (m : GoMap α) (k : String) (v : α) :
    countKey (mapInsert m k v) k =
      if countKey m k = 0 then 1 else countKey m k := by
  induction m with
  | nil => simp [mapInsert, countKey]
  | cons p m ih =>
    obtain ⟨a, w⟩ := p
    by_cases h : a = k
    · subst h
      simp only [mapInsert, if_pos rfl, countKey, List.countP_cons]
      simp
    · have hb : (a == k) = false := beq_eq_false_iff_ne.mpr h
      simp only [mapInsert, if_neg h, countKey, List.countP_cons, hb] at ih ⊢
      simp [ih]

theorem countKey_insert_ne (m : GoMap α) (k k' : String) (v : α)
    (hne : k' ≠ k) : countKey (mapInsert m k v) k' = countKey m k' := by
  induction m with
  | nil => simp [mapInsert, countKey, List.countP_cons, Ne.symm hne]
  | cons p m ih =>
    obtain ⟨a, w⟩ := p
    by_cases h : a = k
    · subst h
      simp [mapInsert, countKey, List.countP_cons, Ne.symm hne]
    · simp only [mapInsert, if_neg h, countKey, List.countP_cons] at ih ⊢
      simp [ih]

/-! ## String lemmas -/

theorem strMk_data (s : String) : String.mk s.data = s := rfl

theorem colon_data : (":" : String).data = [':'] := rfl

theorem strIndexAux_eq_none (t : Char) :
    ∀ (cs : List Char) (i : Nat), strIndexAux t cs i = none → t ∉ cs := by
  intro cs
  induction cs with
  | nil => intro i _; simp
  | cons c cs ih =>
    intro i hnone
    simp only [strIndexAux] at hnone
    by_cases h : c = t
    · simp [h] at hnone
    · intro hmem
      rcases List.mem_cons.mp hmem with h1 | h1
      · exact h h1.symm
      · exact ih (i + 1) (by simpa [h] using hnone) h1

theorem strIndexAux_append (t : Char) :
    ∀ (cs : List Char) (i : Nat), t ∉ cs → ∀ ds : List Char,
      strIndexAux t (cs ++ t :: ds) i = some (i + cs.length) := by
  intro cs
  induction cs with
  | nil => intro i _ ds; simp [strIndexAux]
  | cons c cs ih =>
    intro i hmem ds
    have hc : ¬c = t := fun h => hmem (by simp [h])
    simp only [List.cons_append, strIndexAux, List.append_eq, if_neg hc]
    rw [ih (i + 1) (fun h => hmem (List.mem_cons_of_mem _ h)) ds]
    congr 1
    simp
    omega

theorem data_append_colon (h p : String) :
    (h ++ ":" ++ p).data = h.data ++ ':' :: p.data := by
  rw [String.data_append, String.data_append, colon_data, List.append_assoc]
  rfl

theorem stringsIndexByte_append_colon (h p : String)
    (hnc : stringsIndexByte h ':' = none) :
    stringsIndexByte (h ++ ":" ++ p) ':' = some h.length := by
  have hmem : ':' ∉ h.data := strIndexAux_eq_none ':' h.data 0 hnc
  rw [stringsIndexByte, data_append_colon, strIndexAux_append ':' h.data 0 hmem p.data]
  have hlen : h.data.length = h.length := rfl
  rw [Nat.zero_add, hlen]

theorem strTake_append_colon (h p : String) :
    strTake (h ++ ":" ++ p) h.length = h := by
  have hlen : h.length = h.data.length := rfl
  rw [strTake, data_append_colon, hlen, List.take_left]

theorem append_colon_ne_empty (h p : String) : h ++ ":" ++ p ≠ "" := by
  intro he
  have hl := congrArg String.length he
  rw [String.length_append, String.length_append] at hl
  have hcolon : (":" : String).length = 1 := rfl
  have hempty : ("" : String).length = 0 := rfl
  rw [hcolon, hempty] at hl
  omega

theorem colon_append_ne_empty (p : String) : ":" ++ p ≠ "" := by
  intro he
  have hl := congrArg String.length he
  rw [String.length_append] at hl
  have hcolon : (":" : String).length = 1 := rfl
  have hempty : ("" : String).length = 0 := rfl
  rw [hcolon, hempty] at hl
  omega

theorem append_colon_ne (h p : String) : h ++ ":" ++ p ≠ h := by
  intro he
  have hl := congrArg String.length he
  rw [String.length_append, String.length_append] at hl
  have hcolon : (":" : String).length = 1 := rfl
  rw [hcolon] at hl
  omega

/-! ## Proxy-table construction lemmas -/

theorem find?_eq_head_filter (p : α → Bool) :
    ∀ l : List α, l.find? p = (l.filter p).head? := by
  intro l
  induction l with
  | nil => rfl
  | cons a l ih =>
    cases h : p a
    · rw [List.find?_cons_of_neg _ (by simp [h]), List.filter_cons, if_neg (by simp [h])]
      exact ih
    · rw [List.find?_cons_of_pos _ h, List.filter_cons, if_pos h]
      rfl

theorem setupProxies_lookup (urlOk : String → Bool) (h : String) :
    ∀ (l : List HostConfig) (m : GoMap String),
      mapLookup
        (l.foldl
          (fun m route =>
            if urlOk route.Host then mapInsert m route.Proxy route.Host else m) m) h =
        match l.reverse.find? (fun r => r.Proxy == h && urlOk r.Host) with
        | some r => some r.Host
        | none => mapLookup m h := by
  intro l
  induction l with
  | nil => intro m; rfl
  | cons r t ih =>
    intro m
    simp only [List.foldl_cons, List.reverse_cons, List.find?_append]
    rw [ih]
    cases hf : t.reverse.find? (fun r => r.Proxy == h && urlOk r.Host) with
    | some r1 => simp
    | none =>
      simp only [Option.none_or]
      cases hu : urlOk r.Host with
      | false => simp [List.find?, hu]
      | true =>
        by_cases hph : r.Proxy = h
        · subst hph
          simp [List.find?, hu, mapLookup_insert_self]
        · have hb : (r.Proxy == h) = false := beq_eq_false_iff_ne.mpr hph
          simp [List.find?, hu, hb, mapLookup_insert_ne _ _ _ _ (Ne.symm hph)]

theorem setupProxies_lookup_getLast (urlOk : String → Bool) (h : String)
    (l : List HostConfig) :
    mapLookup (setupProxies urlOk l) h =
      match (l.filter (fun r => r.Proxy == h && urlOk r.Host)).getLast? with
      | some r => some r.Host
      | none => none := by
  rw [setupProxies, setupProxies_lookup urlOk h l []]
  rw [find?_eq_head_filter, List.filter_reverse, List.head?_reverse]
  cases hg : (l.filter (fun r => r.Proxy == h && urlOk r.Host)).getLast? <;>
    simp [hg, mapLookup]

theorem countKey_foldl_le_one (urlOk : String → Bool) (h : String) :
    ∀ (l : List HostConfig) (m : GoMap String), countKey m h ≤ 1 →
      countKey
        (l.foldl
          (fun m route =>
            if urlOk route.Host then mapInsert m route.Proxy route.Host else m) m) h ≤ 1 := by
  intro l
  induction l with
  | nil => intro m hm; exact hm
  | cons r t ih =>
    intro m hm
    simp only [List.foldl_cons]
    apply ih
    cases hu : urlOk r.Host with
    | false =>
      rw [if_neg (by simp [hu])]
      exact hm
    | true =>
      rw [if_pos rfl]
      by_cases hph : r.Proxy = h
      · subst hph
        rw [countKey_insert_self]
        split <;> omega
      · rw [countKey_insert_ne _ _ _ _ (Ne.symm hph)]
        exact hm

theorem countKey_foldl_pos (urlOk : String → Bool) (h : String) :
    ∀ (l : List HostConfig) (m : GoMap String),
      (¬l.filter (fun r => r.Proxy == h && urlOk r.Host) = [] ∨ 1 ≤ countKey m h) →
      1 ≤ countKey
        (l.foldl
          (fun m route =>
            if urlOk route.Host then mapInsert m route.Proxy route.Host else m) m) h := by
  intro l
  induction l with
  | nil =>
    intro m hm
    rcases hm with hbad | hok
    · simp at hbad
    · exact hok
  | cons r t ih =>
    intro m hm
    simp only [List.foldl_cons]
    apply ih
    rcases hm with hne | hok
    · rw [List.filter_cons] at hne
      cases hc : (r.Proxy == h && urlOk r.Host) with
      | false =>
        rw [hc] at hne
        left
        simpa using hne
      | true =>
        right
        have hparts := (Bool.and_eq_true _ _).mp hc
        have hph : r.Proxy = h := beq_iff_eq.mp hparts.1
        rw [if_pos hparts.2]
        subst hph
        rw [countKey_insert_self]
        split <;> omega
    · right
      cases hu : urlOk r.Host with
      | false =>
        rw [if_neg (by simp [hu])]
        exact hok
      | true =>
        rw [if_pos rfl]
        by_cases hph : r.Proxy = h
        · subst hph
          rw [countKey_insert_self]
          split <;> omega
        · rw [countKey_insert_ne _ _ _ _ (Ne.symm hph)]
          exact hok

theorem setupProxies_eq_filter (urlOk : String → Bool) :
    ∀ (l : List HostConfig) (m : GoMap String),
      l.foldl
        (fun m route =>
          if urlOk route.Host then mapInsert m route.Proxy route.Host else m) m =
      (l.filter (fun r => urlOk r.Host)).foldl
        (fun m route => mapInsert m route.Proxy route.Host) m := by
  intro l
  induction l with
  | nil => intro m; rfl
  | cons r t ih =>
    intro m
    cases hu : urlOk r.Host <;>
      simp [List.foldl_cons, List.filter_cons, hu, ih]

theorem setupProxies_all (l : List HostConfig) :
    setupProxies (fun _ => true) l =
      l.foldl (fun m route => mapInsert m route.Proxy route.Host) [] := by
  rw [setupProxies]
  simp

/-! ## Claim theorems -/

/-- C1: for every inbound request the dispatcher tries the three
strategies in strict priority order on the exact Host header string: a
registered local handler always wins (regardless of any proxy route or
static root also configured), else a configured reverse-proxy target is
used, else a non-empty static root serves the static fallback, else the
response status is 404 Not Found. -/
theorem C1_dispatch_priority (handlers : GoMap α) (proxies : GoMap String)
    (staticDir : String) (fs : String → Bool) (req : Request) :
    (∀ hd, mapLookup handlers req.host = some hd →
      proxyHandler handlers proxies staticDir req = .handler hd) ∧
    (mapLookup handlers req.host = none →
      ∀ p, mapLookup proxies req.host = some p →
        proxyHandler handlers proxies staticDir req = .proxy p) ∧
    (mapLookup handlers req.host = none → mapLookup proxies req.host = none →
      staticDir ≠ "" →
      proxyHandler handlers proxies staticDir req =
        .serveFile (pathJoin staticDir req.host)) ∧
    (mapLookup handlers req.host = none → mapLookup proxies req.host = none →
      staticDir = "" →
      dispatchAnswer fs (proxyHandler handlers proxies staticDir req) = .notFound) := by
  refine ⟨fun hd h1 => ?_, fun h1 p h2 => ?_, fun h1 h2 h3 => ?_, fun h1 h2 h3 => ?_⟩
  · simp [proxyHandler, h1]
  · simp [proxyHandler, h1, h2]
  · simp [proxyHandler, h1, h2, h3]
  · simp [proxyHandler, dispatchAnswer, h1, h2, h3]

/-- Witness for C1: with a handler, a proxy route and a static root all
present for the same host, the handler is chosen; with none of the three
the answer is 404. -/
theorem C1_dispatch_priority_witness :
    proxyHandler [("www.dev1.com", 7)] [("www.dev1.com", "http://localhost:8090")] "."
      { host := "www.dev1.com", urlPath := "/", requestURI := "/" } =
      Dispatch.handler 7 ∧
    dispatchAnswer (fun _ => false)
      (proxyHandler ([] : GoMap Nat) [] ""
        { host := "nosuch.com", urlPath := "/", requestURI := "/" }) = .notFound :=
  ⟨(C1_dispatch_priority [("www.dev1.com", 7)]
      [("www.dev1.com", "http://localhost:8090")] "." (fun _ => false)
      { host := "www.dev1.com", urlPath := "/", requestURI := "/" }).1 7 rfl,
   (C1_dispatch_priority ([] : GoMap Nat) [] "" (fun _ => false)
      { host := "nosuch.com", urlPath := "/", requestURI := "/" }).2.2.2 rfl rfl rfl⟩

/-- C2: evaluation of the redirect handler at the claim's scenario —
configured primary address :8443, request GET /path?x=1 with Host
example.com:8443. The code answers 301 with Location
https://example.com8443/path?x=1: the configured port is appended with
no colon separator (realSSLPort is Addr[i+1:], dropping the colon), so
the Location differs from the https://example.com:8443/path?x=1 the
claim requires. -/
theorem C2_redirect_location_missing_colon :
    redirectHandler ":8443"
      { host := "example.com:8443", urlPath := "/path", requestURI := "/path?x=1" } =
      { status := 301, location := "https://example.com8443/path?x=1" } ∧
    ("https://example.com8443/path?x=1" : String) ≠ "https://example.com:8443/path?x=1" :=
  ⟨rfl, by decide⟩

/-- C3 counterexample: with static root /srv and no handler or proxy
for host example.com, a request for /index.html is answered by serving
the path /srv/example.com — the host-named path alone — not the claimed
/srv/example.com/index.html: the requested path is not part of the
resolved file path. -/
theorem C3_static_ignores_request_path :
    proxyHandler ([] : GoMap Nat) [] "/srv"
      { host := "example.com", urlPath := "/index.html", requestURI := "/index.html" } =
      .serveFile "/srv/example.com" ∧
    ("/srv/example.com" : String) ≠ "/srv/example.com/index.html" :=
  ⟨rfl, by decide⟩

/-- C3 amended: when a host has no handler and no proxy route and the
static root is non-empty, the dispatcher serves the single path
path.Join(staticRoot, host); the requested URL path plays no part in
the resolved file path (any two requests with the same Host get the
same decision), and when the resolved path does not exist the response
is 404 Not Found. -/
theorem C3_static_serves_host_dir (handlers : GoMap α) (proxies : GoMap String)
    (staticDir : String) (fs : String → Bool) (req req2 : Request)
    (h1 : mapLookup handlers req.host = none)
    (h2 : mapLookup proxies req.host = none)
    (h3 : staticDir ≠ "") (hsame : req2.host = req.host) :
    proxyHandler handlers proxies staticDir req =
      .serveFile (pathJoin staticDir req.host) ∧
    proxyHandler handlers proxies staticDir req2 =
      proxyHandler handlers proxies staticDir req ∧
    (fs (pathJoin staticDir req.host) = false →
      dispatchAnswer fs (proxyHandler handlers proxies staticDir req) = .notFound) := by
  refine ⟨?_, ?_, fun hf => ?_⟩
  · simp [proxyHandler, h1, h2, h3]
  · simp [proxyHandler, hsame]
  · simp [proxyHandler, dispatchAnswer, h1, h2, h3, hf]

/-- Witness for C3: at static root /srv, host example.com and a file
system on which no path exists, the response is 404. -/
theorem C3_static_serves_host_dir_witness :
    dispatchAnswer (fun _ => false)
      (proxyHandler ([] : GoMap Nat) [] "/srv"
        { host := "example.com", urlPath := "/a", requestURI := "/a" }) = .notFound :=
  (C3_static_serves_host_dir ([] : GoMap Nat) [] "/srv" (fun _ => false)
      { host := "example.com", urlPath := "/a", requestURI := "/a" }
      { host := "example.com", urlPath := "/a", requestURI := "/a" }
      rfl rfl (by decide) rfl).2.2 rfl

/-- C4 counterexample: the address localhost lacks a colon and the ADDR
environment variable is set, yet ParseHost returns the address
unchanged instead of the environment-derived value: only the empty
address consults the environment. -/
theorem C4_non_colon_address_keeps_value :
    ParseHost { ADDR := "1.2.3.4:80", HOST := "", HOSTNAME := "", PORT := "" }
      "localhost" = "localhost" ∧
    ("localhost" : String) ≠ "1.2.3.4:80" :=
  ⟨rfl, by decide⟩

/-- C4 amended: ParseHost normalizes addresses as follows: an EMPTY
address (rather than any address lacking a colon) triggers
environment-derived fallback in priority order ADDR, then HOST, then
HOSTNAME (suffixed with :PORT when PORT is set), then PORT alone as
:PORT, then the default 0.0.0.0:8080; an address whose first character
is a colon is prefixed with 0.0.0.0, except :https which maps to
0.0.0.0:443; the claim's three concrete examples hold. -/
theorem C4_parsehost_normalization (env : GoEnv) (addr : String) :
    (env.ADDR ≠ "" → ParseHost env "" = ParseHost env env.ADDR) ∧
    (env.ADDR = "" → env.HOST ≠ "" → ParseHost env "" = ParseHost env env.HOST) ∧
    (env.ADDR = "" → env.HOST = "" → env.HOSTNAME ≠ "" → env.PORT ≠ "" →
      ParseHost env "" = ParseHost env (env.HOSTNAME ++ ":" ++ env.PORT)) ∧
    (env.ADDR = "" → env.HOST = "" → env.HOSTNAME ≠ "" → env.PORT = "" →
      ParseHost env "" = ParseHost env env.HOSTNAME) ∧
    (env.ADDR = "" → env.HOST = "" → env.HOSTNAME = "" → env.PORT ≠ "" →
      ParseHost env "" = ParseHost env (":" ++ env.PORT)) ∧
    (env.ADDR = "" → env.HOST = "" → env.HOSTNAME = "" → env.PORT = "" →
      ParseHost env "" = "0.0.0.0:8080") ∧
    (addr ≠ "" → stringsIndexByte addr ':' = some 0 → addr ≠ ":https" →
      ParseHost env addr = "0.0.0.0" ++ addr) ∧
    ParseHost env ":https" = "0.0.0.0:443" ∧
    ParseHost { ADDR := "", HOST := "", HOSTNAME := "example.com", PORT := "9090" } "" =
      "example.com:9090" ∧
    ParseHost env ":9090" = "0.0.0.0:9090" := by
  refine ⟨fun h1 => ?_, fun h1 h2 => ?_, fun h1 h2 h3 h4 => ?_, fun h1 h2 h3 h4 => ?_,
    fun h1 h2 h3 h4 => ?_, fun h1 h2 h3 h4 => ?_, fun h1 h2 h3 => ?_, rfl, rfl, rfl⟩
  · simp [ParseHost, h1]
  · simp [ParseHost, h1, h2]
  · simp [ParseHost, h1, h2, h3, h4, append_colon_ne_empty]
  · simp [ParseHost, h1, h2, h3, h4]
  · simp [ParseHost, h1, h2, h3, h4, colon_append_ne_empty]
  · simp [ParseHost, h1, h2, h3, h4]
    rfl
  · simp [ParseHost, h1, h2, h3, DefaultServerHostname]

/-- Witness for C4: the claim's first concrete example, derived through
the HOSTNAME and PORT branch of the amended normalization statement. -/
theorem C4_parsehost_normalization_witness :
    ParseHost { ADDR := "", HOST := "", HOSTNAME := "example.com", PORT := "9090" } "" =
      "example.com:9090" := by
  rw [(C4_parsehost_normalization
      { ADDR := "", HOST := "", HOSTNAME := "example.com", PORT := "9090" }
      "x").2.2.1 rfl rfl (by decide) (by decide)]
  rfl

/-- C5: listener provisioning follows a strict priority order, never a
merge: non-empty explicit certificate and key file paths produce a TLS
listener wrapping that single loaded certificate (and a load failure
fails the provisioning call); else, unless automatic certificate
management is disabled, an ACME-managed listener is obtained, the
production variant exactly when the production flag is set; else a
plain unencrypted TCP listener is returned. -/
theorem C5_listen_priority (env : GoEnv)
    (loadCert : String → String → Option String) (cfg : Configuration) :
    (cfg.SSL.Default.CertFile ≠ "" → cfg.SSL.Default.KeyFile ≠ "" →
      (∀ cert,
        loadCert cfg.SSL.Default.CertFile cfg.SSL.Default.KeyFile = some cert →
        Listen env loadCert cfg =
          .ok (.tlsCert (ParseHost env (ParseHost env cfg.Addr)) cert)) ∧
      (loadCert cfg.SSL.Default.CertFile cfg.SSL.Default.KeyFile = none →
        ∃ e, Listen env loadCert cfg = .error e)) ∧
    ((cfg.SSL.Default.CertFile = "" ∨ cfg.SSL.Default.KeyFile = "") →
      cfg.SSL.DisableLetsEncrypt = false →
      Listen env loadCert cfg =
        .ok (.acme cfg.Prod
          (ParseHost env
            (if stringsIndexByte (ParseHost env cfg.Addr) ':' = none
             then ParseHost env cfg.Addr ++ DefaultSSLAddr
             else ParseHost env cfg.Addr)))) ∧
    ((cfg.SSL.Default.CertFile = "" ∨ cfg.SSL.Default.KeyFile = "") →
      cfg.SSL.DisableLetsEncrypt = true →
      Listen env loadCert cfg = .ok (.tcp (ParseHost env (ParseHost env cfg.Addr)))) := by
  refine ⟨fun hc hk => ⟨fun cert hcert => ?_, fun hnone => ?_⟩,
    fun hck hd => ?_, fun hck hd => ?_⟩
  · simp [Listen, hc, hk, TLS, hcert, CERT]
  · simp [Listen, hc, hk, TLS, hnone]
  · have hnot : ¬(cfg.SSL.Default.CertFile ≠ "" ∧ cfg.SSL.Default.KeyFile ≠ "") := by
      rcases hck with h | h <;> simp [h]
    by_cases hp : cfg.Prod <;>
      simp [Listen, hnot, hd, hp, LETSENCRYPT, LETSENCRYPTPROD]
  · have hnot : ¬(cfg.SSL.Default.CertFile ≠ "" ∧ cfg.SSL.Default.KeyFile ≠ "") := by
      rcases hck with h | h <;> simp [h]
    simp [Listen, hnot, hd, TCP4]

/-- Witness for C5: with empty certificate paths and automatic
certificates disabled, Listen yields the plain TCP listener at the
normalized address. -/
theorem C5_listen_priority_witness :
    Listen { ADDR := "", HOST := "", HOSTNAME := "", PORT := "" } (fun _ _ => none)
      { Prod := true, Addr := ":443", LogLevel := "", StaticDir := "", Proxies := [],
        SSL := { RedirectHTTP := { Enable := false, Addr := "" },
                 DisableLetsEncrypt := true,
                 Default := { CertFile := "", KeyFile := "" } } } =
      .ok (.tcp "0.0.0.0:443") := by
  rw [(C5_listen_priority { ADDR := "", HOST := "", HOSTNAME := "", PORT := "" }
      (fun _ _ => none)
      { Prod := true, Addr := ":443", LogLevel := "", StaticDir := "", Proxies := [],
        SSL := { RedirectHTTP := { Enable := false, Addr := "" },
                 DisableLetsEncrypt := true,
                 Default := { CertFile := "", KeyFile := "" } } }).2.2 (Or.inl rfl) rfl]
  rfl

/-- C6 counterexample: from the serving state, Shutdown followed by the
Service receive makes Service return with no error, but the primary
listener is not closed — the source contains no Close call — so the
socket is not released as the claim states. -/
theorem C6_shutdown_no_listener_release :
    (serviceAwait (Shutdown servingState)).serviceResult = some none ∧
    (serviceAwait (Shutdown servingState)).listenerClosed ≠ true :=
  ⟨rfl, by decide⟩

/-- C6 amended: calling Shutdown after Service has begun (the serving
state: Service blocked on an empty exit channel) causes the Service
receive to return with no error after one channel rendezvous; the
primary listener's socket is left exactly as it was — no operation of
the source closes it — so it is not released. -/
theorem C6_shutdown_unblocks_service (s : RunState) (hchan : s.exitChan = []) :
    (serviceAwait (Shutdown s)).serviceResult = some none ∧
    (serviceAwait (Shutdown s)).listenerClosed = s.listenerClosed ∧
    (serviceAwait (Shutdown s)).exitChan = [] := by
  simp [Shutdown, serviceAwait, hchan]

/-- Witness for C6 at the serving state. -/
theorem C6_shutdown_unblocks_service_witness :
    (serviceAwait (Shutdown servingState)).serviceResult = some none ∧
    (serviceAwait (Shutdown servingState)).listenerClosed = false :=
  ⟨(C6_shutdown_unblocks_service servingState rfl).1,
   (C6_shutdown_unblocks_service servingState rfl).2.1⟩

/-- C7: AddHostHandler rejects an empty host with the invalid-argument
error, rejects a proxy whose maps were not allocated by Setup with the
not-initialized error, and otherwise inserts or overwrites the mapping
for that host — last write wins — so that a subsequent request for the
host is dispatched to the most recently registered handler. -/
theorem C7_addHostHandler (m : GoMap α) (host : String) (hd1 hd2 : α)
    (proxies : GoMap String) (staticDir : String) (hmap : Option (GoMap α))
    (hne : host ≠ "") :
    AddHostHandler hmap "" hd1 = .error errHostEmpty ∧
    AddHostHandler (none : Option (GoMap α)) host hd1 = .error errSetupNotCalled ∧
    AddHostHandler (some m) host hd1 = .ok (some (mapInsert m host hd1)) ∧
    (∀ req : Request, req.host = host →
      proxyHandler (mapInsert (mapInsert m host hd1) host hd2) proxies staticDir req =
        .handler hd2) := by
  refine ⟨?_, ?_, ?_, fun req hreq => ?_⟩
  · simp [AddHostHandler]
  · simp [AddHostHandler, hne]
  · simp [AddHostHandler, hne]
  · simp [proxyHandler, hreq, mapLookup_insert_self]

/-- Witness for C7: registering twice for one host keeps the second
handler, and the dispatcher uses it. -/
theorem C7_addHostHandler_witness :
    AddHostHandler (some ([] : GoMap Nat)) "www.dev1.com" 1 =
      .ok (some [("www.dev1.com", 1)]) ∧
    proxyHandler
      (mapInsert (mapInsert ([] : GoMap Nat) "www.dev1.com" 1) "www.dev1.com" 2)
      [] "." { host := "www.dev1.com", urlPath := "/", requestURI := "/" } =
      .handler 2 :=
  ⟨(C7_addHostHandler ([] : GoMap Nat) "www.dev1.com" 1 2 [] "." none
      (by decide)).2.2.1,
   (C7_addHostHandler ([] : GoMap Nat) "www.dev1.com" 1 2 [] "." none
      (by decide)).2.2.2
      { host := "www.dev1.com", urlPath := "/", requestURI := "/" } rfl⟩

/-- C8: Setup returns without error for every configuration and every
behaviour of the URL parser, and the proxy table it builds is exactly
the table built from the routes whose upstream URL parses: each route
whose URL fails to parse is skipped, while every other route is still
entered. -/
theorem C8_setup_skips_unparsable (urlOk : String → Bool) (cfg : Configuration) :
    (Setup urlOk cfg : Except String (ProxyModel Nat)) =
      .ok { config := cfg, handlers := some [],
            proxies := setupProxies urlOk cfg.Proxies } ∧
    setupProxies urlOk cfg.Proxies =
      setupProxies (fun _ => true) (cfg.Proxies.filter (fun r => urlOk r.Host)) := by
  refine ⟨rfl, ?_⟩
  rw [setupProxies_all]
  simp only [setupProxies]
  exact setupProxies_eq_filter urlOk cfg.Proxies []

/-- C9: when the configuration contains exactly two HostRoute entries
with the same virtual host name (both with parseable upstream URLs),
Setup produces exactly one active proxy route for that host, namely the
one from the later entry in configuration order. -/
theorem C9_duplicate_host_last_wins (urlOk : String → Bool) (cfg : Configuration)
    (h : String) (r1 r2 : HostConfig)
    (hfilter : cfg.Proxies.filter (fun r => r.Proxy == h) = [r1, r2])
    (h1 : urlOk r1.Host = true) (h2 : urlOk r2.Host = true) :
    mapLookup (setupProxies urlOk cfg.Proxies) h = some r2.Host ∧
    countKey (setupProxies urlOk cfg.Proxies) h = 1 := by
  have hboth : cfg.Proxies.filter (fun r => r.Proxy == h && urlOk r.Host) = [r1, r2] := by
    have hsw : cfg.Proxies.filter (fun r => r.Proxy == h && urlOk r.Host) =
        (cfg.Proxies.filter (fun r => r.Proxy == h)).filter (fun r => urlOk r.Host) := by
      rw [List.filter_filter]
      exact List.filter_congr (fun x _ => Bool.and_comm _ _)
    rw [hsw, hfilter]
    simp [List.filter_cons, h1, h2]
  constructor
  · rw [setupProxies_lookup_getLast, hboth]
    simp
  · refine Nat.le_antisymm ?_ ?_
    · simp only [setupProxies]
      exact countKey_foldl_le_one urlOk h cfg.Proxies [] (by simp [countKey])
    · simp only [setupProxies]
      refine countKey_foldl_pos urlOk h cfg.Proxies [] (Or.inl ?_)
      rw [hboth]
      simp

/-- Witness for C9 at a concrete configuration with two routes for the
same virtual host. -/
theorem C9_duplicate_host_last_wins_witness :
    mapLookup
      (setupProxies (fun _ => true)
        [{ Proxy := "www.dev1.com", Host := "http://localhost:8090" },
         { Proxy := "www.dev1.com", Host := "http://localhost:8091" }])
      "www.dev1.com" = some "http://localhost:8091" ∧
    countKey
      (setupProxies (fun _ => true)
        [{ Proxy := "www.dev1.com", Host := "http://localhost:8090" },
         { Proxy := "www.dev1.com", Host := "http://localhost:8091" }])
      "www.dev1.com" = 1 :=
  C9_duplicate_host_last_wins (fun _ => true)
    { Prod := false, Addr := "", LogLevel := "", StaticDir := "",
      Proxies := [{ Proxy := "www.dev1.com", Host := "http://localhost:8090" },
                  { Proxy := "www.dev1.com", Host := "http://localhost:8091" }],
      SSL := { RedirectHTTP := { Enable := false, Addr := "" },
               DisableLetsEncrypt := false,
               Default := { CertFile := "", KeyFile := "" } } }
    "www.dev1.com"
    { Proxy := "www.dev1.com", Host := "http://localhost:8090" }
    { Proxy := "www.dev1.com", Host := "http://localhost:8091" }
    rfl rfl rfl

/-- C10: the dispatch lookup key is the raw Host header value including
any port suffix: a host registered without a port component (as handler
and as proxy route) does not match a request whose Host carries a port
— the request falls through to the static or 404 strategy — even
though the redirect server strips the port from the Host header for its
own redirect target. -/
theorem C10_dispatch_key_raw_host (hst p : String) (hd : α)
    (pr staticDir configAddr : String) (req : Request)
    (hnc : stringsIndexByte hst ':' = none)
    (hreq : req.host = hst ++ ":" ++ p) :
    proxyHandler [(hst, hd)] [(hst, pr)] staticDir req =
      (if staticDir ≠ "" then .serveFile (pathJoin staticDir req.host)
       else Dispatch.notFound) ∧
    redirectHandler configAddr req =
      { status := 301
        location := "https://" ++ hst ++ realSSLPort configAddr ++ req.requestURI } := by
  have hne : hst ≠ hst ++ ":" ++ p := Ne.symm (append_colon_ne hst p)
  constructor
  · have hl1 : mapLookup [(hst, hd)] req.host = none := by
      rw [hreq]
      simp [mapLookup, hne]
    have hl2 : mapLookup [(hst, pr)] req.host = none := by
      rw [hreq]
      simp [mapLookup, hne]
    simp [proxyHandler, hl1, hl2]
  · simp [redirectHandler, hreq, stringsIndexByte_append_colon hst p hnc,
      strTake_append_colon]

/-- Witness for C10: example.com is registered, the request Host is
example.com:8443 with an empty static root, and the dispatcher answers
404 while the redirect handler strips the port. -/
theorem C10_dispatch_key_raw_host_witness :
    proxyHandler [("example.com", 5)] [("example.com", "http://upstream")] ""
      { host := "example.com:8443", urlPath := "/", requestURI := "/" } =
      Dispatch.notFound ∧
    redirectHandler ":8443"
      { host := "example.com:8443", urlPath := "/", requestURI := "/" } =
      { status := 301, location := "https://example.com8443/" } := by
  have h := C10_dispatch_key_raw_host "example.com" "8443" 5 "http://upstream" ""
    ":8443" { host := "example.com:8443", urlPath := "/", requestURI := "/" } rfl rfl
  refine ⟨?_, ?_⟩
  · rw [h.1]
    rfl
  · rw [h.2]
    rfl

end Gomost
